import Mathlib

/-!
Verification of the mini-ERP backend (src/main.py, src/schemas.py).

The document-store adapter (database.py: the shared handle `db`,
`create_document`, `get_documents`) and the point-lookup/point-update
operations it provides are not part of src/; they are modelled from the
spec (sections 4.1 and 6).  Everything else is translated directly from
src/main.py and src/schemas.py.
-/

/-- Decidable equality for Except, so that concrete handler outcomes can
be checked by decide. -/
instance {ε α : Type} [DecidableEq ε] [DecidableEq α] :
    DecidableEq (Except ε α) := fun x y =>
  match x, y with
  | .ok a, .ok b =>
      if h : a = b then .isTrue (by rw [h])
      else .isFalse (by intro hc; cases hc; exact h rfl)
  | .ok _, .error _ => .isFalse (by intro hc; cases hc)
  | .error _, .ok _ => .isFalse (by intro hc; cases hc)
  | .error e, .error f =>
      if h : e = f then .isTrue (by rw [h])
      else .isFalse (by intro hc; cases hc; exact h rfl)

/-- HTTP error raised by a handler: mirrors fastapi.HTTPException with
a status code and a detail string. -/
structure HError where
  status : Nat
  detail : String
deriving DecidableEq

/-- Modelled from the spec: a stored UserAccount document.  src/main.py
line 8 imports a `UserAccount` schema from schemas.py, but schemas.py
does not define it; the field layout here follows spec section 3
(name, email, role with default viewer, optional company_id, api_key)
plus the store-assigned identifier of spec section 4.1. -/
structure UserAccountDoc where
  uid : Nat
  name : String
  email : String
  role : String
  company_id : Option String
  api_key : String
deriving DecidableEq

/-- Company schema from src/schemas.py lines 43-51: required name,
optional industry and country, modules list defaulting to empty. -/
structure Company where
  name : String
  industry : Option String
  country : Option String
  modules : List String
deriving DecidableEq

/-- A persisted Company document: the Company record plus the
store-assigned identifier (spec section 4.1). -/
structure CompanyDoc where
  uid : Nat
  data : Company
deriving DecidableEq

/-- Module schema from src/schemas.py lines 53-60: company_id, name,
enabled flag. -/
structure ModuleRec where
  company_id : String
  name : String
  enabled : Bool
deriving DecidableEq

/-- A persisted Module document: ModuleRec plus the assigned id. -/
structure ModuleDoc where
  uid : Nat
  data : ModuleRec
deriving DecidableEq

/-- Modelled from the spec: the document store state (database.py is not
under src/).  Per spec section 4.1 the store keeps named collections of
records in insertion order and assigns a unique opaque identifier per
document; we keep one counter `nextId` supplying fresh identifiers. -/
structure Store where
  nextId : Nat
  useraccount : List UserAccountDoc
  company : List CompanyDoc
  module : List ModuleDoc
deriving DecidableEq

/-- Modelled from the spec: `find one by field equality` (spec section 6)
on the useraccount collection, key = api_key.  Returns the first match in
natural (insertion) order, as the store's find_one does. -/
def findOneByApiKey (s : Store) (k : String) : Option UserAccountDoc :=
  s.useraccount.find? (fun d => d.api_key == k)

/-- Modelled from the spec: `find one by field equality` (spec section 6)
on the useraccount collection, key = email. -/
def findOneByEmail (s : Store) (e : String) : Option UserAccountDoc :=
  s.useraccount.find? (fun d => d.email == e)

/-- Modelled from the spec: `update one field by id` (spec section 6):
overwrite the api_key of the first useraccount document whose identifier
matches. -/
def updateApiKey : List UserAccountDoc → Nat → String → List UserAccountDoc
  | [], _, _ => []
  | d :: ds, i, k =>
      if d.uid = i then { d with api_key := k } :: ds
      else d :: updateApiKey ds i k

/-- Modelled from the spec: `create_document("company", record)` (spec
section 4.1): persist the record under a newly assigned unique identifier
and return the identifier in string form. -/
def create_document_company (s : Store) (c : Company) : String × Store :=
  (toString s.nextId,
   { s with nextId := s.nextId + 1, company := s.company ++ [⟨s.nextId, c⟩] })

/-- Modelled from the spec: `create_document("module", record)`. -/
def create_document_module (s : Store) (m : ModuleRec) : String × Store :=
  (toString s.nextId,
   { s with nextId := s.nextId + 1, module := s.module ++ [⟨s.nextId, m⟩] })

/-- Modelled from the spec: `create_document("useraccount", record)`. -/
def create_document_useraccount (s : Store) (u : UserAccountDoc) : String × Store :=
  let stored : UserAccountDoc := { u with uid := s.nextId }
  (toString s.nextId,
   { s with nextId := s.nextId + 1, useraccount := s.useraccount ++ [stored] })

/-- Modelled from the spec: `get_documents("company", limit)` (spec
section 4.1): up to `limit` records in natural order. -/
def get_documents_company (s : Store) (limit : Nat) : List CompanyDoc :=
  s.company.take limit

/-- AuthContext from src/main.py lines 65-69. -/
structure AuthContext where
  user_id : String
  email : String
  role : String
  company_id : Option String
deriving DecidableEq

/-- get_auth_context from src/main.py lines 72-90.  `if not x_api_key`
is Python falsiness: both a missing header and an empty-string header
take the 401 Missing branch.  The lookup runs only when the store handle
is initialized (`if db`), otherwise doc is None and the 401 Invalid
branch fires. -/
def get_auth_context (db : Option Store) (x_api_key : Option String) :
    Except HError AuthContext :=
  if x_api_key = none ∨ x_api_key = some "" then
    .error ⟨401, "Missing X-API-Key header"⟩
  else
    match x_api_key with
    | none => .error ⟨401, "Missing X-API-Key header"⟩
    | some k =>
      match (match db with
             | some s => findOneByApiKey s k
             | none => none) with
      | none => .error ⟨401, "Invalid API key"⟩
      | some doc =>
          .ok ⟨toString doc.uid, doc.email, doc.role, doc.company_id⟩

/-- require_roles from src/main.py lines 93-98: authenticate, then fail
403 when the caller's role is not in the permitted list. -/
def require_roles (roles : List String) (db : Option Store)
    (x_api_key : Option String) : Except HError AuthContext := do
  let ctx ← get_auth_context db x_api_key
  if ctx.role ∈ roles then pure ctx
  else .error ⟨403, "Forbidden: insufficient role"⟩

/-- CompanyCreate request model from src/main.py lines 102-106.  The
modules field is Optional with default []: an explicit null gives none,
an absent field gives some []. -/
structure CompanyCreate where
  name : String
  industry : Option String
  country : Option String
  modules : Option (List String)
deriving DecidableEq

/-- A raw JSON body for POST /api/companies, before pydantic validation:
each field may be absent.  For modules, the outer Option is field
presence and the inner Option is an explicit null. -/
structure CompanyCreateBody where
  name : Option String
  industry : Option String
  country : Option String
  modules : Option (Option (List String))
deriving DecidableEq

/-- Pydantic validation of CompanyCreate: name is required (missing
field rejected with 422), industry and country default to None, modules
defaults to []. No constraint beyond presence and type is enforced. -/
def validateCompanyCreate (b : CompanyCreateBody) :
    Except HError CompanyCreate :=
  match b.name with
  | none => .error ⟨422, "Field required: name"⟩
  | some n => .ok ⟨n, b.industry, b.country, (b.modules.getD (some []))⟩

/-- Success payload of POST /api/companies and POST /api/modules/toggle:
an id and a message (src/main.py lines 112 and 131). -/
structure IdMessage where
  id : String
  message : String
deriving DecidableEq

/-- create_company handler body from src/main.py lines 108-112 (after
the admin role dependency): build a Company from the payload and persist
it.  Passing modules=None into the Company model fails pydantic
validation (Company.modules is a plain list), surfacing as a 500. -/
def create_company_body (db : Option Store) (p : CompanyCreate) :
    Except HError (IdMessage × Store) :=
  match db with
  | none => .error ⟨500, "Internal Server Error"⟩
  | some s =>
    match p.modules with
    | none => .error ⟨500, "Internal Server Error"⟩
    | some ms =>
        let r := create_document_company s ⟨p.name, p.industry, p.country, ms⟩
        .ok (⟨r.1, "Company created"⟩, r.2)

/-- POST /api/companies from src/main.py lines 108-112: require the
admin role, then run the handler body. -/
def create_company (db : Option Store) (key : Option String)
    (p : CompanyCreate) : Except HError (IdMessage × Store) := do
  let _ ← require_roles ["admin"] db key
  create_company_body db p

/-- POST /api/companies including body validation (spec section 2:
parse and validate the body, authenticate, then persist). -/
def create_company_endpoint (db : Option Store) (key : Option String)
    (b : CompanyCreateBody) : Except HError (IdMessage × Store) := do
  let p ← validateCompanyCreate b
  create_company db key p

/-- A company record as returned by GET /api/companies: the stored
fields with the identifier converted to a string (src/main.py line 118). -/
structure CompanyOut where
  id : String
  name : String
  industry : Option String
  country : Option String
  modules : List String
deriving DecidableEq

/-- GET /api/companies from src/main.py lines 114-119: admin or manager
role, fetch up to 50 company documents, stringify each identifier. -/
def list_companies (db : Option Store) (key : Option String) :
    Except HError (List CompanyOut) := do
  let _ ← require_roles ["admin", "manager"] db key
  match db with
  | none => .error ⟨500, "Internal Server Error"⟩
  | some s =>
      pure ((get_documents_company s 50).map
        (fun d => ⟨toString d.uid, d.data.name, d.data.industry,
                   d.data.country, d.data.modules⟩))

/-- ModuleToggle request model from src/main.py lines 121-124. -/
structure ModuleToggle where
  company_id : String
  name : String
  enabled : Bool
deriving DecidableEq

/-- POST /api/modules/toggle from src/main.py lines 126-131: admin or
manager role, then insert a new Module record (a naive insert recording
the toggle; nothing is updated in place). -/
def toggle_module (db : Option Store) (key : Option String)
    (p : ModuleToggle) : Except HError (IdMessage × Store) := do
  let _ ← require_roles ["admin", "manager"] db key
  match db with
  | none => .error ⟨500, "Internal Server Error"⟩
  | some s =>
      let r := create_document_module s ⟨p.company_id, p.name, p.enabled⟩
      pure (⟨r.1, "Module updated"⟩, r.2)

/-- UserCreate request model from src/main.py lines 135-139. -/
structure UserCreate where
  name : String
  email : String
  role : String
  company_id : Option String
deriving DecidableEq

/-- Success payload of POST /api/users (src/main.py line 150). -/
structure UserCreated where
  id : String
  api_key : String
deriving DecidableEq

/-- POST /api/users from src/main.py lines 144-150: admin role, generate
a fresh key from the random byte source, persist a UserAccount with it,
return id and key.  The value drawn from os.urandom(16).hex() enters as
the explicit argument `entropy`. -/
def create_user (db : Option Store) (key : Option String) (p : UserCreate)
    (entropy : String) : Except HError (UserCreated × Store) := do
  let _ ← require_roles ["admin"] db key
  match db with
  | none => .error ⟨500, "Internal Server Error"⟩
  | some s =>
      let u : UserAccountDoc :=
        ⟨0, p.name, p.email, p.role, p.company_id, entropy⟩
      let r := create_document_useraccount s u
      pure (⟨r.1, entropy⟩, r.2)

/-- APIKeyIssue request model from src/main.py lines 141-142. -/
structure APIKeyIssue where
  email : String
deriving DecidableEq

/-- issue_api_key handler body from src/main.py lines 154-159 (after the
admin role dependency): find_one by email (None when the store handle is
uninitialized), 404 when absent, else overwrite the stored api_key with
a fresh random value and return it. -/
def issue_api_key_body (db : Option Store) (p : APIKeyIssue)
    (entropy : String) : Except HError (String × Store) :=
  match (match db with
         | some s => findOneByEmail s p.email
         | none => none) with
  | none => .error ⟨404, "User not found"⟩
  | some d =>
      match db with
      | none => .error ⟨404, "User not found"⟩
      | some s =>
          .ok (entropy,
               { s with useraccount := updateApiKey s.useraccount d.uid entropy })

/-- POST /api/users/issue-key from src/main.py lines 152-159. -/
def issue_api_key (db : Option Store) (key : Option String)
    (p : APIKeyIssue) (entropy : String) : Except HError (String × Store) := do
  let _ ← require_roles ["admin"] db key
  issue_api_key_body db p entropy

/-- Class names defined in src/schemas.py (lines 19, 30, 43, 53). -/
def schemas_defined_classes : List String :=
  ["User", "Product", "Company", "Module"]

/-- Names that src/main.py line 8 imports from schemas.py. -/
def main_schemas_imports : List String :=
  ["Company", "Module", "UserAccount"]

/-- The store handle as GET /test probes it: an optional display name
(db.name when the attribute exists) and the outcome of
list_collection_names, which either returns the collection names or
raises, modelled as an Except carrying the exception text. -/
structure DbHandle where
  displayName : Option String
  listCollectionNames : Except String (List String)

/-- The diagnostic object returned by GET /test (src/main.py lines
31-38). -/
structure TestResponse where
  backend : String
  database : String
  database_url : String
  database_name : String
  connection_status : String
  collections : List String
deriving DecidableEq

/-- test_database from src/main.py lines 28-61: build the default
response; when the handle is initialized, mark it available and try
listing collection names, keeping at most 10 and downgrading a raised
error to a descriptive string (str(e)[:50]); when the handle is None,
report it as not initialized.  Finally database_url and database_name
are overwritten from the two environment flags.  Every store failure is
caught, so the function is total and always returns a TestResponse. -/
def test_database (db : Option DbHandle) (url_set name_set : Bool) :
    TestResponse :=
  let r0 : TestResponse :=
    ⟨"✅ Running", "❌ Not Available", "", "", "Not Connected", []⟩
  let r1 : TestResponse :=
    match db with
    | some h =>
        let r := { r0 with database := "✅ Available",
                           database_url := "✅ Configured",
                           database_name := h.displayName.getD "✅ Connected",
                           connection_status := "Connected" }
        match h.listCollectionNames with
        | .ok cs =>
            { r with collections := cs.take 10,
                     database := "✅ Connected & Working" }
        | .error e =>
            { r with database := "⚠️  Connected but Error: " ++ e.take 50 }
    | none => { r0 with database := "⚠️  Available but not initialized" }
  { r1 with database_url := if url_set then "✅ Set" else "❌ Not Set",
            database_name := if name_set then "✅ Set" else "❌ Not Set" }

/-- A concrete admin account used by witnesses. -/
def adminDoc : UserAccountDoc :=
  ⟨1, "Root", "root@example.com", "admin", none, "adminkey"⟩

/-- A concrete manager account used by witnesses. -/
def managerDoc : UserAccountDoc :=
  ⟨2, "Mia", "mia@example.com", "manager", some "7", "managerkey"⟩

/-- A concrete viewer account used by witnesses. -/
def viewerDoc : UserAccountDoc :=
  ⟨3, "Vic", "vic@example.com", "viewer", some "7", "viewerkey"⟩

/-- A concrete store with one admin, one manager and one viewer. -/
def exStore : Store :=
  ⟨4, [adminDoc, managerDoc, viewerDoc], [], []⟩

/-- A store whose single useraccount has the empty string as api_key. -/
def emptyKeyStore : Store :=
  ⟨2, [⟨1, "Eve", "eve@example.com", "admin", none, ""⟩], [], []⟩

/-- The AuthContext that get_auth_context builds from a matched
useraccount document (src/main.py lines 85-90). -/
def authCtxOf (d : UserAccountDoc) : AuthContext :=
  ⟨toString d.uid, d.email, d.role, d.company_id⟩

lemma get_auth_context_no_key (db : Option Store) :
    get_auth_context db none = .error ⟨401, "Missing X-API-Key header"⟩ := rfl

lemma get_auth_context_some_key (s : Store) (k : String) (hk : k ≠ "") :
    get_auth_context (some s) (some k) =
      match findOneByApiKey s k with
      | none => .error ⟨401, "Invalid API key"⟩
      | some d => .ok (authCtxOf d) := by
  unfold get_auth_context
  rw [if_neg]
  · rfl
  · simp [hk]

lemma get_auth_context_found (s : Store) (k : String) (hk : k ≠ "")
    (d : UserAccountDoc) (hfind : findOneByApiKey s k = some d) :
    get_auth_context (some s) (some k) = .ok (authCtxOf d) := by
  rw [get_auth_context_some_key s k hk, hfind]

lemma get_auth_context_not_found (s : Store) (k : String) (hk : k ≠ "")
    (hfind : findOneByApiKey s k = none) :
    get_auth_context (some s) (some k) = .error ⟨401, "Invalid API key"⟩ := by
  rw [get_auth_context_some_key s k hk, hfind]

lemma require_roles_no_key (roles : List String) (db : Option Store) :
    require_roles roles db none =
      .error ⟨401, "Missing X-API-Key header"⟩ := rfl

lemma require_roles_found (roles : List String) (s : Store) (k : String)
    (hk : k ≠ "") (d : UserAccountDoc)
    (hfind : findOneByApiKey s k = some d) :
    require_roles roles (some s) (some k) =
      if d.role ∈ roles then .ok (authCtxOf d)
      else .error ⟨403, "Forbidden: insufficient role"⟩ := by
  unfold require_roles
  rw [get_auth_context_found s k hk d hfind]
  rfl

/-- Claim C1 (counterexample): the claim says that whenever a supplied
key matches a stored UserAccount, an AuthContext is produced.  But the
auth gate treats a supplied empty-string key as a missing header
(Python falsiness of `not x_api_key`): with a store containing an
account whose api_key is the empty string, the matching document exists
yet the request fails 401 "Missing X-API-Key header" instead of
producing an AuthContext. -/
theorem C1_counterexample :
    findOneByApiKey emptyKeyStore "" =
      some ⟨1, "Eve", "eve@example.com", "admin", none, ""⟩ ∧
    get_auth_context (some emptyKeyStore) (some "") =
      .error ⟨401, "Missing X-API-Key header"⟩ := by
  exact ⟨by decide, by decide⟩

/-- Claim C1 (amended): for the auth gate, a missing header fails 401
(missing credential); a supplied NON-EMPTY key with no matching
UserAccount fails 401 (invalid credential); a supplied non-empty key
with a match produces the AuthContext {user_id, email, role, company_id}
from the matched document.  A supplied empty-string key is treated as a
missing header. -/
theorem C1_auth_gate (s : Store) (k : String) (hk : k ≠ "") :
    get_auth_context (some s) none =
      .error ⟨401, "Missing X-API-Key header"⟩ ∧
    get_auth_context (some s) (some "") =
      .error ⟨401, "Missing X-API-Key header"⟩ ∧
    (findOneByApiKey s k = none →
      get_auth_context (some s) (some k) =
        .error ⟨401, "Invalid API key"⟩) ∧
    (∀ d, findOneByApiKey s k = some d →
      get_auth_context (some s) (some k) =
        .ok ⟨toString d.uid, d.email, d.role, d.company_id⟩) := by
  refine ⟨rfl, rfl, ?_, ?_⟩
  · intro hfind
    exact get_auth_context_not_found s k hk hfind
  · intro d hfind
    exact get_auth_context_found s k hk d hfind

/-- Witness for C1_auth_gate at a concrete store and key. -/
theorem C1_auth_gate_witness :
    ("adminkey" : String) ≠ "" ∧
    findOneByApiKey exStore "adminkey" = some adminDoc ∧
    get_auth_context (some exStore) (some "adminkey") =
      .ok ⟨"1", "root@example.com", "admin", none⟩ := by
  refine ⟨by decide, by decide, ?_⟩
  exact (C1_auth_gate exStore "adminkey" (by decide)).2.2.2 adminDoc (by decide)

/-- Claim C2: without a key every guarded endpoint fails 401; with an
authenticated caller whose role is outside the endpoint's permitted set
the endpoint fails 403 and never returns the success shape; the
permitted sets are exactly {admin} for company creation and user
management and {admin, manager} for listing companies and toggling
modules (the role gate succeeds precisely on membership). -/
theorem C2_role_gates (s : Store) (k : String) (hk : k ≠ "")
    (d : UserAccountDoc) (hfind : findOneByApiKey s k = some d)
    (pc : CompanyCreate) (pu : UserCreate) (pi : APIKeyIssue)
    (pm : ModuleToggle) (e : String) :
    (create_company (some s) none pc =
        .error ⟨401, "Missing X-API-Key header"⟩ ∧
     create_user (some s) none pu e =
        .error ⟨401, "Missing X-API-Key header"⟩ ∧
     issue_api_key (some s) none pi e =
        .error ⟨401, "Missing X-API-Key header"⟩ ∧
     list_companies (some s) none =
        .error ⟨401, "Missing X-API-Key header"⟩ ∧
     toggle_module (some s) none pm =
        .error ⟨401, "Missing X-API-Key header"⟩) ∧
    (d.role ∉ (["admin"] : List String) →
      create_company (some s) (some k) pc =
        .error ⟨403, "Forbidden: insufficient role"⟩ ∧
      create_user (some s) (some k) pu e =
        .error ⟨403, "Forbidden: insufficient role"⟩ ∧
      issue_api_key (some s) (some k) pi e =
        .error ⟨403, "Forbidden: insufficient role"⟩) ∧
    (d.role ∉ (["admin", "manager"] : List String) →
      list_companies (some s) (some k) =
        .error ⟨403, "Forbidden: insufficient role"⟩ ∧
      toggle_module (some s) (some k) pm =
        .error ⟨403, "Forbidden: insufficient role"⟩) ∧
    (require_roles ["admin"] (some s) (some k) =
      if d.role ∈ (["admin"] : List String) then .ok (authCtxOf d)
      else .error ⟨403, "Forbidden: insufficient role"⟩) ∧
    (require_roles ["admin", "manager"] (some s) (some k) =
      if d.role ∈ (["admin", "manager"] : List String) then .ok (authCtxOf d)
      else .error ⟨403, "Forbidden: insufficient role"⟩) := by
  have hra := require_roles_found ["admin"] s k hk d hfind
  have hrm := require_roles_found ["admin", "manager"] s k hk d hfind
  refine ⟨⟨rfl, rfl, rfl, rfl, rfl⟩, ?_, ?_, hra, hrm⟩
  · intro h
    rw [if_neg h] at hra
    refine ⟨?_, ?_, ?_⟩
    · unfold create_company
      rw [hra]
      rfl
    · unfold create_user
      rw [hra]
      rfl
    · unfold issue_api_key
      rw [hra]
      rfl
  · intro h
    rw [if_neg h] at hrm
    refine ⟨?_, ?_⟩
    · unfold list_companies
      rw [hrm]
      rfl
    · unfold toggle_module
      rw [hrm]
      rfl

/-- Witness for C2_role_gates: a viewer is refused by both role sets. -/
theorem C2_role_gates_witness :
    ("viewerkey" : String) ≠ "" ∧
    findOneByApiKey exStore "viewerkey" = some viewerDoc ∧
    create_company (some exStore) (some "viewerkey")
      ⟨"Acme", none, none, some []⟩ =
      .error ⟨403, "Forbidden: insufficient role"⟩ ∧
    list_companies (some exStore) (some "viewerkey") =
      .error ⟨403, "Forbidden: insufficient role"⟩ := by
  have h := C2_role_gates exStore "viewerkey" (by decide) viewerDoc (by decide)
    ⟨"Acme", none, none, some []⟩ ⟨"Bob", "bob@example.com", "viewer", none⟩
    ⟨"bob@example.com"⟩ ⟨"7", "Sales", true⟩ "freshkey"
  exact ⟨by decide, by decide, (h.2.1 (by decide)).1, (h.2.2.1 (by decide)).1⟩

/-- Claim C3: the schema layer is supposed to define a UserAccount
entity usable by the user-creation endpoint, and src/main.py line 8
imports it from schemas.py; but schemas.py defines only User, Product,
Company and Module, so the import of UserAccount fails at process
startup — the code contradicts its own import declaration. -/
theorem C3_useraccount_schema_missing :
    "UserAccount" ∈ main_schemas_imports ∧
    "UserAccount" ∉ schemas_defined_classes := by
  exact ⟨by decide, by decide⟩

def toggledStore (s : Store) (p : ModuleToggle) : Store :=
  (create_document_module s ⟨p.company_id, p.name, p.enabled⟩).2

lemma toggle_module_found (s : Store) (k : String) (hk : k ≠ "")
    (d : UserAccountDoc) (hfind : findOneByApiKey s k = some d)
    (hrole : d.role ∈ (["admin", "manager"] : List String))
    (p : ModuleToggle) :
    toggle_module (some s) (some k) p =
      .ok (⟨toString s.nextId, "Module updated"⟩, toggledStore s p) := by
  have hgate := require_roles_found ["admin", "manager"] s k hk d hfind
  rw [if_pos hrole] at hgate
  unfold toggle_module
  rw [hgate]
  rfl

/-- Claim C4: toggling a module twice always appends two new Module
documents with distinct store-assigned identifiers; no existing record
is mutated (the prior collection contents are kept unchanged as a
prefix of the result) and both new records remain retrievable from the
module collection. -/
theorem C4_toggle_twice (s : Store) (k : String) (hk : k ≠ "")
    (d : UserAccountDoc) (hfind : findOneByApiKey s k = some d)
    (hrole : d.role ∈ (["admin", "manager"] : List String))
    (p1 p2 : ModuleToggle) :
    ∃ s1 s2,
      toggle_module (some s) (some k) p1 =
        .ok (⟨toString s.nextId, "Module updated"⟩, s1) ∧
      toggle_module (some s1) (some k) p2 =
        .ok (⟨toString (s.nextId + 1), "Module updated"⟩, s2) ∧
      s1.module = s.module ++
        [⟨s.nextId, ⟨p1.company_id, p1.name, p1.enabled⟩⟩] ∧
      s2.module = s.module ++
        [⟨s.nextId, ⟨p1.company_id, p1.name, p1.enabled⟩⟩,
         ⟨s.nextId + 1, ⟨p2.company_id, p2.name, p2.enabled⟩⟩] ∧
      (⟨s.nextId, ⟨p1.company_id, p1.name, p1.enabled⟩⟩ : ModuleDoc)
        ∈ s2.module ∧
      (⟨s.nextId + 1, ⟨p2.company_id, p2.name, p2.enabled⟩⟩ : ModuleDoc)
        ∈ s2.module ∧
      (⟨s.nextId, ⟨p1.company_id, p1.name, p1.enabled⟩⟩ : ModuleDoc) ≠
        ⟨s.nextId + 1, ⟨p2.company_id, p2.name, p2.enabled⟩⟩ := by
  have hfind1 : findOneByApiKey (toggledStore s p1) k = some d := hfind
  have h1 := toggle_module_found s k hk d hfind hrole p1
  have h2 := toggle_module_found (toggledStore s p1) k hk d hfind1 hrole p2
  have hmod2 : (toggledStore (toggledStore s p1) p2).module = s.module ++
      [⟨s.nextId, ⟨p1.company_id, p1.name, p1.enabled⟩⟩,
       ⟨s.nextId + 1, ⟨p2.company_id, p2.name, p2.enabled⟩⟩] := by
    show (s.module ++ [_]) ++ [_] = _
    rw [List.append_assoc]
    rfl
  refine ⟨toggledStore s p1, toggledStore (toggledStore s p1) p2,
    h1, h2, rfl, hmod2, ?_, ?_, ?_⟩
  · rw [hmod2]
    simp
  · rw [hmod2]
    simp
  · intro hc
    have := congrArg ModuleDoc.uid hc
    simp at this

/-- Witness for C4_toggle_twice at a concrete manager and store. -/
theorem C4_toggle_twice_witness :
    ("managerkey" : String) ≠ "" ∧
    findOneByApiKey exStore "managerkey" = some managerDoc ∧
    managerDoc.role ∈ (["admin", "manager"] : List String) ∧
    ∃ s1 s2,
      toggle_module (some exStore) (some "managerkey") ⟨"7", "Sales", true⟩ =
        .ok (⟨"4", "Module updated"⟩, s1) ∧
      toggle_module (some s1) (some "managerkey") ⟨"7", "Sales", false⟩ =
        .ok (⟨"5", "Module updated"⟩, s2) := by
  have h := C4_toggle_twice exStore "managerkey" (by decide) managerDoc
    (by decide) (by decide) ⟨"7", "Sales", true⟩ ⟨"7", "Sales", false⟩
  refine ⟨by decide, by decide, by decide, ?_⟩
  rcases h with ⟨s1, s2, h1, h2, _⟩
  exact ⟨s1, s2, h1, h2⟩

/-- Claim C7: GET /test is total — it returns a diagnostic object for
every store condition; an uninitialized handle and a failing collection
listing are both downgraded to descriptive status strings (the listing
error text truncated to 50 characters), and the backend field always
reports the endpoint itself as running. -/
theorem C7_test_database_degrades :
    (∀ db u n, (test_database db u n).backend = "✅ Running") ∧
    (∀ u n, (test_database none u n).database =
      "⚠️  Available but not initialized") ∧
    (∀ nm e u n,
      (test_database (some ⟨nm, .error e⟩) u n).database =
        "⚠️  Connected but Error: " ++ e.take 50 ∧
      (test_database (some ⟨nm, .error e⟩) u n).connection_status =
        "Connected") ∧
    (∀ nm cs u n,
      (test_database (some ⟨nm, .ok cs⟩) u n).database =
        "✅ Connected & Working" ∧
      (test_database (some ⟨nm, .ok cs⟩) u n).collections = cs.take 10) := by
  refine ⟨fun db u n => ?_, fun u n => rfl,
    fun nm e u n => ⟨rfl, rfl⟩, fun nm cs u n => ⟨rfl, rfl⟩⟩
  rcases db with _ | h
  · rfl
  · rcases h with ⟨nm, lc⟩
    rcases lc with e | cs <;> rfl

/-- Claim C10: with an uninitialized store handle (db is None), the auth
gate reports 401 "Invalid API key" for every supplied non-empty key (the
lookup short-circuits to None), every role-guarded request therefore
fails 401 rather than signalling store unavailability, and the issue-key
handler body reports 404 "User not found" for every email. -/
theorem C10_store_none_masked (k : String) (hk : k ≠ "")
    (roles : List String) (email entropy : String) :
    get_auth_context none (some k) = .error ⟨401, "Invalid API key"⟩ ∧
    require_roles roles none (some k) = .error ⟨401, "Invalid API key"⟩ ∧
    get_auth_context none none = .error ⟨401, "Missing X-API-Key header"⟩ ∧
    issue_api_key_body none ⟨email⟩ entropy =
      .error ⟨404, "User not found"⟩ := by
  have hauth : get_auth_context none (some k) =
      .error ⟨401, "Invalid API key"⟩ := by
    unfold get_auth_context
    rw [if_neg]
    simp [hk]
  refine ⟨hauth, ?_, rfl, rfl⟩
  unfold require_roles
  rw [hauth]
  rfl

/-- Witness for C10_store_none_masked: a key that is valid in exStore is
still rejected as invalid once the handle is None. -/
theorem C10_store_none_masked_witness :
    ("adminkey" : String) ≠ "" ∧
    findOneByApiKey exStore "adminkey" = some adminDoc ∧
    get_auth_context none (some "adminkey") =
      .error ⟨401, "Invalid API key"⟩ ∧
    issue_api_key_body none ⟨"root@example.com"⟩ "freshkey" =
      .error ⟨404, "User not found"⟩ := by
  have h := C10_store_none_masked "adminkey" (by decide) ["admin"]
    "root@example.com" "freshkey"
  exact ⟨by decide, by decide, h.1, h.2.2.2⟩

/-- Claim C8: for an authorized admin or manager caller, GET
/api/companies returns the first 50 company documents with every
identifier converted to its string form; the result has at most 50
entries and each entry's fields come from a stored company document. -/
theorem C8_list_companies (s : Store) (k : String) (hk : k ≠ "")
    (d : UserAccountDoc) (hfind : findOneByApiKey s k = some d)
    (hrole : d.role ∈ (["admin", "manager"] : List String)) :
    list_companies (some s) (some k) =
      .ok ((s.company.take 50).map fun c =>
        ⟨toString c.uid, c.data.name, c.data.industry,
         c.data.country, c.data.modules⟩) ∧
    ∀ out, list_companies (some s) (some k) = .ok out →
      out.length ≤ 50 ∧
      ∀ o ∈ out, ∃ c, c ∈ s.company ∧ o.id = toString c.uid ∧
        o.name = c.data.name ∧ o.industry = c.data.industry ∧
        o.country = c.data.country ∧ o.modules = c.data.modules := by
  have hgate := require_roles_found ["admin", "manager"] s k hk d hfind
  rw [if_pos hrole] at hgate
  have heq : list_companies (some s) (some k) =
      .ok ((s.company.take 50).map fun c =>
        ⟨toString c.uid, c.data.name, c.data.industry,
         c.data.country, c.data.modules⟩) := by
    unfold list_companies
    rw [hgate]
    rfl
  refine ⟨heq, ?_⟩
  intro out hout
  rw [heq] at hout
  have hout2 : out = (s.company.take 50).map fun c =>
      (⟨toString c.uid, c.data.name, c.data.industry,
        c.data.country, c.data.modules⟩ : CompanyOut) :=
    (Except.ok.injEq _ _).mp hout.symm
  subst hout2
  constructor
  · rw [List.length_map, List.length_take]
    exact min_le_left _ _
  · intro o ho
    rcases List.mem_map.mp ho with ⟨c, hc, hco⟩
    exact ⟨c, List.take_subset 50 s.company hc, by rw [← hco],
      by rw [← hco], by rw [← hco], by rw [← hco], by rw [← hco]⟩

/-- Witness for C8_list_companies on a store holding one company. -/
theorem C8_list_companies_witness :
    ("managerkey" : String) ≠ "" ∧
    findOneByApiKey ⟨8, [adminDoc, managerDoc],
        [⟨5, ⟨"Acme", some "Retail", none, []⟩⟩], []⟩ "managerkey" =
      some managerDoc ∧
    list_companies (some ⟨8, [adminDoc, managerDoc],
        [⟨5, ⟨"Acme", some "Retail", none, []⟩⟩], []⟩) (some "managerkey") =
      .ok [⟨"5", "Acme", some "Retail", none, []⟩] := by
  have h := C8_list_companies ⟨8, [adminDoc, managerDoc],
      [⟨5, ⟨"Acme", some "Retail", none, []⟩⟩], []⟩ "managerkey"
    (by decide) managerDoc (by decide) (by decide)
  exact ⟨by decide, by decide, h.1⟩

/-- Claim C9 (counterexample): the claim says a body whose name is the
empty string is rejected before persistence and only non-empty names
are ever persisted; but validation only requires the name field to be
present, so POST /api/companies with name "" succeeds and a company
document with the empty name is persisted. -/
theorem C9_counterexample :
    validateCompanyCreate ⟨some "", none, none, none⟩ =
      .ok ⟨"", none, none, some []⟩ ∧
    create_company_endpoint (some exStore) (some "adminkey")
      ⟨some "", none, none, none⟩ =
      .ok (⟨"4", "Company created"⟩,
        ⟨5, [adminDoc, managerDoc, viewerDoc],
         [⟨4, ⟨"", none, none, []⟩⟩], []⟩) ∧
    (⟨4, ⟨"", none, none, []⟩⟩ : CompanyDoc) ∈
      ([⟨4, ⟨"", none, none, []⟩⟩] : List CompanyDoc) := by
  exact ⟨by decide, by decide, by decide⟩

/-- Claim C9 (amended): a Company's name is a required string: a body
missing the name field is rejected by validation (422) before any
persistence, and a body carrying a name (including the empty string) is
validated to a CompanyCreate with exactly that name — non-emptiness is
not enforced, so a persisted company's name is whatever string the body
carried. -/
theorem C9_company_name_validation (b : CompanyCreateBody) :
    (b.name = none →
      validateCompanyCreate b = .error ⟨422, "Field required: name"⟩ ∧
      ∀ db key, create_company_endpoint db key b =
        .error ⟨422, "Field required: name"⟩) ∧
    (∀ nm, b.name = some nm →
      validateCompanyCreate b =
        .ok ⟨nm, b.industry, b.country, b.modules.getD (some [])⟩) := by
  constructor
  · intro hn
    have hv : validateCompanyCreate b =
        .error ⟨422, "Field required: name"⟩ := by
      unfold validateCompanyCreate
      rw [hn]
    refine ⟨hv, ?_⟩
    intro db key
    unfold create_company_endpoint
    rw [hv]
    rfl
  · intro nm hn
    unfold validateCompanyCreate
    rw [hn]

/-- Witness for C9_company_name_validation: a missing name is rejected
end to end, a present name is accepted verbatim. -/
theorem C9_company_name_validation_witness :
    (⟨none, some "Retail", none, none⟩ : CompanyCreateBody).name = none ∧
    create_company_endpoint (some exStore) (some "adminkey")
      ⟨none, some "Retail", none, none⟩ =
      .error ⟨422, "Field required: name"⟩ ∧
    (⟨some "Acme", none, none, none⟩ : CompanyCreateBody).name =
      some "Acme" ∧
    validateCompanyCreate ⟨some "Acme", none, none, none⟩ =
      .ok ⟨"Acme", none, none, some []⟩ := by
  refine ⟨rfl, ?_, rfl, ?_⟩
  · exact ((C9_company_name_validation
      ⟨none, some "Retail", none, none⟩).1 rfl).2 (some exStore)
      (some "adminkey")
  · exact (C9_company_name_validation
      ⟨some "Acme", none, none, none⟩).2 "Acme" rfl

lemma find?_append_left {α : Type} (p : α → Bool) (l1 l2 : List α)
    (a : α) (h : l1.find? p = some a) : (l1 ++ l2).find? p = some a := by
  rw [List.find?_append, h]
  rfl

lemma find?_append_right {α : Type} (p : α → Bool) (l1 l2 : List α)
    (h : l1.find? p = none) : (l1 ++ l2).find? p = l2.find? p := by
  rw [List.find?_append, h]
  rfl

def newUserDoc (s : Store) (p : UserCreate) (e : String) : UserAccountDoc :=
  ⟨s.nextId, p.name, p.email, p.role, p.company_id, e⟩

def createdUserStore (s : Store) (p : UserCreate) (e : String) : Store :=
  (create_document_useraccount s ⟨0, p.name, p.email, p.role, p.company_id, e⟩).2

lemma create_user_ok (s : Store) (k : String) (hk : k ≠ "")
    (d : UserAccountDoc) (hfind : findOneByApiKey s k = some d)
    (hrole : d.role ∈ (["admin"] : List String))
    (p : UserCreate) (e : String) :
    create_user (some s) (some k) p e =
      .ok (⟨toString s.nextId, e⟩, createdUserStore s p e) := by
  have hgate := require_roles_found ["admin"] s k hk d hfind
  rw [if_pos hrole] at hgate
  unfold create_user
  rw [hgate]
  rfl

/-- Claim C6: two successive successful calls to POST /api/users whose
random byte source yields different hex strings return distinct api_key
values, and the key returned by the first call, presented immediately as
X-API-Key, authenticates as the newly created user (fresh keys are
assumed not to collide with any stored key, as the spec's random
generation provides). -/
theorem C6_create_user_keys (s : Store) (k : String) (hk : k ≠ "")
    (d : UserAccountDoc) (hfind : findOneByApiKey s k = some d)
    (hrole : d.role ∈ (["admin"] : List String))
    (p1 p2 : UserCreate) (e1 e2 : String) (hne : e1 ≠ e2) (he1 : e1 ≠ "")
    (hfresh : ∀ y ∈ s.useraccount, y.api_key ≠ e1) :
    ∃ s1 s2,
      create_user (some s) (some k) p1 e1 =
        .ok (⟨toString s.nextId, e1⟩, s1) ∧
      create_user (some s1) (some k) p2 e2 =
        .ok (⟨toString (s.nextId + 1), e2⟩, s2) ∧
      (⟨toString s.nextId, e1⟩ : UserCreated).api_key ≠
        (⟨toString (s.nextId + 1), e2⟩ : UserCreated).api_key ∧
      get_auth_context (some s1) (some e1) =
        .ok ⟨toString s.nextId, p1.email, p1.role, p1.company_id⟩ := by
  have h1 := create_user_ok s k hk d hfind hrole p1 e1
  have hfind1 : findOneByApiKey (createdUserStore s p1 e1) k = some d := by
    show (s.useraccount ++ [newUserDoc s p1 e1]).find?
      (fun y => y.api_key == k) = some d
    exact find?_append_left _ _ _ d hfind
  have h2 := create_user_ok (createdUserStore s p1 e1) k hk d hfind1 hrole p2 e2
  have hfindNew : findOneByApiKey (createdUserStore s p1 e1) e1 =
      some (newUserDoc s p1 e1) := by
    show (s.useraccount ++ [newUserDoc s p1 e1]).find?
      (fun y => y.api_key == e1) = some _
    rw [find?_append_right]
    · simp [List.find?, newUserDoc]
    · rw [List.find?_eq_none]
      intro y hy
      simpa using hfresh y hy
  refine ⟨createdUserStore s p1 e1,
    createdUserStore (createdUserStore s p1 e1) p2 e2, h1, h2, ?_, ?_⟩
  · exact hne
  · exact get_auth_context_found _ e1 he1 _ hfindNew

/-- Witness for C6_create_user_keys: two user creations on exStore with
distinct fresh keys. -/
theorem C6_create_user_keys_witness :
    ("adminkey" : String) ≠ "" ∧
    ("kb1" : String) ≠ "kb2" ∧
    (∀ y ∈ exStore.useraccount, y.api_key ≠ "kb1") ∧
    ∃ s1 s2,
      create_user (some exStore) (some "adminkey")
        ⟨"Bob", "bob@example.com", "viewer", none⟩ "kb1" =
        .ok (⟨"4", "kb1"⟩, s1) ∧
      create_user (some s1) (some "adminkey")
        ⟨"Cis", "cis@example.com", "viewer", none⟩ "kb2" =
        .ok (⟨"5", "kb2"⟩, s2) ∧
      get_auth_context (some s1) (some "kb1") =
        .ok ⟨"4", "bob@example.com", "viewer", none⟩ := by
  have h := C6_create_user_keys exStore "adminkey" (by decide) adminDoc
    (by decide) (by decide) ⟨"Bob", "bob@example.com", "viewer", none⟩
    ⟨"Cis", "cis@example.com", "viewer", none⟩ "kb1" "kb2"
    (by decide) (by decide) (by decide)
  rcases h with ⟨s1, s2, h1, h2, _, h4⟩
  exact ⟨by decide, by decide, by decide, s1, s2, h1, h2, h4⟩

lemma updateApiKey_eq_map (l : List UserAccountDoc) (i : Nat) (k : String)
    (hnd : (l.map UserAccountDoc.uid).Nodup) :
    updateApiKey l i k =
      l.map fun y => if y.uid = i then { y with api_key := k } else y := by
  induction l with
  | nil => rfl
  | cons x xs ih =>
    rw [List.map_cons, List.nodup_cons] at hnd
    simp only [updateApiKey, List.map_cons]
    by_cases hx : x.uid = i
    · rw [if_pos hx, if_pos hx]
      congr 1
      have hfix : ∀ y ∈ xs,
          (if y.uid = i then { y with api_key := k } else y) = y := by
        intro y hy
        rw [if_neg]
        intro hc
        exact hnd.1 (List.mem_map.mpr ⟨y, hy, by rw [hc, hx]⟩)
      rw [List.map_congr_left hfix]
      simp
    · rw [if_neg hx, if_neg hx]
      rw [ih hnd.2]

lemma updateApiKey_key_gone (l : List UserAccountDoc) (u : UserAccountDoc)
    (_hu : u ∈ l) (hnd : (l.map UserAccountDoc.uid).Nodup)
    (huniq : ∀ y ∈ l, y.api_key = u.api_key → y = u)
    (nk : String) (hkne : nk ≠ u.api_key) :
    ∀ x ∈ updateApiKey l u.uid nk, x.api_key ≠ u.api_key := by
  intro x hx
  rw [updateApiKey_eq_map l u.uid nk hnd] at hx
  rcases List.mem_map.mp hx with ⟨y, hy, hxy⟩
  by_cases hyu : y.uid = u.uid
  · rw [if_pos hyu] at hxy
    rw [← hxy]
    exact hkne
  · rw [if_neg hyu] at hxy
    rw [← hxy]
    intro hc
    exact hyu (by rw [huniq y hy hc])

def reissuedStore (s : Store) (u : UserAccountDoc) (nk : String) : Store :=
  { s with useraccount := updateApiKey s.useraccount u.uid nk }

lemma issue_api_key_body_absent (s : Store) (email nk : String)
    (hnone : findOneByEmail s email = none) :
    issue_api_key_body (some s) ⟨email⟩ nk =
      .error ⟨404, "User not found"⟩ := by
  simp only [issue_api_key_body]
  rw [hnone]

lemma issue_api_key_body_present (s : Store) (email nk : String)
    (u : UserAccountDoc) (hfound : findOneByEmail s email = some u) :
    issue_api_key_body (some s) ⟨email⟩ nk =
      .ok (nk, reissuedStore s u nk) := by
  simp only [issue_api_key_body]
  rw [hfound]
  rfl

/-- Claim C5: POST /api/users/issue-key for an admin caller: when no
UserAccount has the given email the request fails 404 (producing no
updated store); when one is found the response carries the fresh key and
the found document's api_key is overwritten with it, after which a
request presenting the previous key fails 401 (provided the fresh key
differs from the old one, the old key is non-empty and held only by that
document, and stored identifiers are distinct — all guaranteed by the
store's unique ids and the random key generation). -/
theorem C5_issue_key (s : Store) (k : String) (hk : k ≠ "")
    (d : UserAccountDoc) (hfind : findOneByApiKey s k = some d)
    (hrole : d.role ∈ (["admin"] : List String)) (email nk : String) :
    (findOneByEmail s email = none →
      issue_api_key (some s) (some k) ⟨email⟩ nk =
        .error ⟨404, "User not found"⟩) ∧
    (∀ u, findOneByEmail s email = some u →
      issue_api_key (some s) (some k) ⟨email⟩ nk =
        .ok (nk, reissuedStore s u nk) ∧
      (nk ≠ u.api_key → u.api_key ≠ "" →
       (s.useraccount.map UserAccountDoc.uid).Nodup →
       (∀ y ∈ s.useraccount, y.api_key = u.api_key → y = u) →
       get_auth_context (some (reissuedStore s u nk)) (some u.api_key) =
         .error ⟨401, "Invalid API key"⟩)) := by
  have hgate := require_roles_found ["admin"] s k hk d hfind
  rw [if_pos hrole] at hgate
  constructor
  · intro hnone
    unfold issue_api_key
    rw [hgate]
    show issue_api_key_body (some s) ⟨email⟩ nk = _
    exact issue_api_key_body_absent s email nk hnone
  · intro u hfound
    constructor
    · unfold issue_api_key
      rw [hgate]
      show issue_api_key_body (some s) ⟨email⟩ nk = _
      exact issue_api_key_body_present s email nk u hfound
    · intro hne hke hnd huniq
      apply get_auth_context_not_found _ _ hke
      show (updateApiKey s.useraccount u.uid nk).find?
        (fun y => y.api_key == u.api_key) = none
      rw [List.find?_eq_none]
      intro x hx
      simp only [beq_iff_eq]
      exact updateApiKey_key_gone s.useraccount u
        (List.mem_of_find?_eq_some hfound) hnd huniq nk hne x hx

/-- Witness for C5_issue_key: reissuing the viewer's key on exStore
succeeds and the old viewer key stops authenticating; an unknown email
yields 404. -/
theorem C5_issue_key_witness :
    findOneByEmail exStore "vic@example.com" = some viewerDoc ∧
    issue_api_key (some exStore) (some "adminkey")
      ⟨"vic@example.com"⟩ "newvic" =
      .ok ("newvic", reissuedStore exStore viewerDoc "newvic") ∧
    get_auth_context (some (reissuedStore exStore viewerDoc "newvic"))
      (some "viewerkey") = .error ⟨401, "Invalid API key"⟩ ∧
    findOneByEmail exStore "ghost@example.com" = none ∧
    issue_api_key (some exStore) (some "adminkey")
      ⟨"ghost@example.com"⟩ "nk2" = .error ⟨404, "User not found"⟩ := by
  have h := C5_issue_key exStore "adminkey" (by decide) adminDoc
    (by decide) (by decide) "vic@example.com" "newvic"
  have hg := C5_issue_key exStore "adminkey" (by decide) adminDoc
    (by decide) (by decide) "ghost@example.com" "nk2"
  have hfound : findOneByEmail exStore "vic@example.com" = some viewerDoc :=
    by decide
  refine ⟨hfound, (h.2 viewerDoc hfound).1, ?_, by decide,
    hg.1 (by decide)⟩
  have h401 := (h.2 viewerDoc hfound).2 (by decide) (by decide)
    (by decide) (by decide)
  exact h401
